import Mathlib

/-!
Verification of the transcript classification-and-routing pipeline of the
voice-note application (convex/agent.ts, convex/voiceNotes.ts,
convex/folders.ts, and the todos module).

The persistence layer (Convex) is modelled as an explicit record of the
three tables, with a shared fresh-id counter and a fixed clock standing in
for Date.now().  Each Convex mutation/query handler used by the pipeline is
translated into a pure function on that state.  Tables are kept newest
record first, matching the `.order("desc")` used by every list query.

The `processTranscript` action is modelled from the point where the
classification response (the chat-completions payload) has been received:
everything before that point is network traffic with no store effect, and
every throw before that point leaves the store untouched.  The routing
portion is the function `route`; besides the final state it returns the
ordered trace of store mutations it issued, so that ordering and
exactly-once properties can be stated.
-/

namespace Talk

/-- Row of the `folders` table: `{ name, createdAt }` plus the system id. -/
structure Folder where
  fid : Nat
  name : String
  createdAt : Nat
deriving Repr, DecidableEq

/-- Row of the `voiceNotes` table:
`{ content, type, folderId?, completed?, createdAt }` plus the system id. -/
structure VoiceNote where
  vid : Nat
  content : String
  vtype : String
  folderId : Option Nat
  completed : Option Bool
  createdAt : Nat
deriving Repr, DecidableEq

/-- Row of the `todos` table: `{ text, done, createdAt }` plus the system id. -/
structure Todo where
  tid : Nat
  text : String
  done : Bool
  createdAt : Nat
deriving Repr, DecidableEq

/-- The collection store: the three tables (newest first), a fresh-id
counter, and the current clock value used for `createdAt`. -/
structure DB where
  voiceNotes : List VoiceNote
  todos : List Todo
  folders : List Folder
  nextId : Nat
  now : Nat
deriving Repr, DecidableEq

/-- folders.create: `ctx.db.insert("folders", { name, createdAt: Date.now() })`,
returning the new id. -/
def foldersCreate (db : DB) (name : String) : Nat × DB :=
  (db.nextId,
   { db with
      folders := ⟨db.nextId, name, db.now⟩ :: db.folders
      nextId := db.nextId + 1 })

/-- folders.list: `ctx.db.query("folders").order("desc").collect()`. -/
def foldersList (db : DB) : List Folder :=
  db.folders

/-- todos.create: `ctx.db.insert("todos", { text, done: false, createdAt: Date.now() })`,
returning the new id. -/
def todosCreate (db : DB) (text : String) : Nat × DB :=
  (db.nextId,
   { db with
      todos := ⟨db.nextId, text, false, db.now⟩ :: db.todos
      nextId := db.nextId + 1 })

/-- voiceNotes.addPlaceholder: inserts
`{ content: "Processing...", type: "note", createdAt: Date.now() }`
(no folderId, no completed) and returns the new id. -/
def addPlaceholder (db : DB) : Nat × DB :=
  (db.nextId,
   { db with
      voiceNotes := ⟨db.nextId, "Processing...", "note", none, none, db.now⟩ :: db.voiceNotes
      nextId := db.nextId + 1 })

/-- voiceNotes.deleteVoiceNote: `ctx.db.delete(args.id)`. -/
def deleteVoiceNote (db : DB) (id : Nat) : DB :=
  { db with voiceNotes := db.voiceNotes.filter (fun n => n.vid ≠ id) }

/-- voiceNotes.finalizeNote:
`ctx.db.patch(args.noteId, { content, type, folderId })`.  The `type`
argument is validated as `v.literal("note")`, so the patched type is always
the string "note". -/
def finalizeNote (db : DB) (noteId : Nat) (content : String) (folderId : Option Nat) : DB :=
  { db with
      voiceNotes := db.voiceNotes.map (fun n =>
        if n.vid = noteId then
          { n with content := content, vtype := "note", folderId := folderId }
        else n) }

/-- JS String.prototype.toLowerCase as used for folder-name comparison:
the per-character lowercase mapping (folder names are ordinary ASCII text
here, where the JS and per-character mappings agree). -/
def toLowerCase (s : String) : String :=
  ⟨s.data.map Char.toLower⟩

/-- The JSON object parsed from `toolCall.function.arguments` in agent.ts,
with the four properties the handler reads: `action`, `noteType`, `folder`,
`content`.  The handler itself performs no validation of their values. -/
structure DecideArgs where
  action : String
  noteType : String
  folder : String
  content : String
deriving Repr, DecidableEq

/-- One entry of `message.tool_calls` in the classification response:
`function.name` and the parsed `function.arguments`. -/
structure ToolCall where
  name : String
  arguments : DecideArgs
deriving Repr, DecidableEq

/-- One store mutation issued by the routing portion of processTranscript,
recorded in the order the handler awaits it. -/
inductive Effect where
  | createTodo (id : Nat) (text : String)
  | deleteNote (id : Nat)
  | createFolder (id : Nat) (name : String)
  | finalize (noteId : Nat) (content : String) (folderId : Option Nat)
deriving Repr, DecidableEq

/-- The routing step of agent.ts (part 3 of the handler): branches on
`args.noteType === "todo"`, then on `switch (args.action)`; the
categorize branch looks the folder up with
`folders.find((f) => f.name.toLowerCase() === args.folder.toLowerCase())`.
Returns the final store plus the ordered mutation trace. -/
def route (db : DB) (noteId : Nat) (args : DecideArgs) : DB × List Effect :=
  if args.noteType = "todo" then
    let r := todosCreate db args.content
    let db2 := deleteVoiceNote r.2 noteId
    (db2, [Effect.createTodo r.1 args.content, Effect.deleteNote noteId])
  else if args.action = "create_folder" then
    let r := foldersCreate db args.folder
    let db2 := finalizeNote r.2 noteId args.content (some r.1)
    (db2, [Effect.createFolder r.1 args.folder,
           Effect.finalize noteId args.content (some r.1)])
  else if args.action = "categorize_note" then
    match (foldersList db).find? (fun f => toLowerCase f.name = toLowerCase args.folder) with
    | none =>
      let r := foldersCreate db args.folder
      let db2 := finalizeNote r.2 noteId args.content (some r.1)
      (db2, [Effect.createFolder r.1 args.folder,
             Effect.finalize noteId args.content (some r.1)])
    | some existingFolder =>
      (finalizeNote db noteId args.content (some existingFolder.fid),
       [Effect.finalize noteId args.content (some existingFolder.fid)])
  else
    (finalizeNote db noteId args.content none,
     [Effect.finalize noteId args.content none])

/-- Extraction of `fcData.choices[0].message.tool_calls?.[0]`: the field may
be absent (`none`) or an array, whose first element is taken when present. -/
def extractToolCall (toolCalls : Option (List ToolCall)) : Option ToolCall :=
  toolCalls.bind List.head?

/-- processTranscript from the point the classification response is in hand:
`if (!toolCall || toolCall.function.name !== "decide") throw`, otherwise the
parsed arguments are routed.  An error result models the thrown exception:
no store mutation has been issued at that point, so no state or trace is
produced. -/
def processTranscript (db : DB) (noteId : Nat) (toolCalls : Option (List ToolCall)) :
    Except String (DB × List Effect) :=
  match extractToolCall toolCalls with
  | none => Except.error "No valid function call in response"
  | some tc =>
    if tc.name = "decide" then Except.ok (route db noteId tc.arguments)
    else Except.error "No valid function call in response"

/-- Tests whether an effect is a terminal mutation (finalize or delete) on
the voice note with id `p`. -/
def Effect.isTerminalOn (p : Nat) : Effect → Bool
  | Effect.deleteNote i => i = p
  | Effect.finalize i _ _ => i = p
  | _ => false

/-- Tests whether an effect deletes the voice note with id `p`. -/
def Effect.isDeleteOn (p : Nat) : Effect → Bool
  | Effect.deleteNote i => i = p
  | _ => false

/-- Tests whether an effect finalizes the voice note with id `p`. -/
def Effect.isFinalizeOn (p : Nat) : Effect → Bool
  | Effect.finalize i _ _ => i = p
  | _ => false

/-- Tests whether an effect creates a folder. -/
def Effect.isCreateFolder : Effect → Bool
  | Effect.createFolder _ _ => true
  | _ => false

/-- The folderId carried by the first finalize effect of a trace, when any. -/
def routedFolderId (effs : List Effect) : Option (Option Nat) :=
  effs.findSome? (fun e =>
    match e with
    | Effect.finalize _ _ fid => some fid
    | _ => none)

/-- A store holding one pending placeholder (id 7) and nothing else, used to
instantiate several of the statements below at a concrete input. -/
def db0 : DB := ⟨[⟨7, "Processing...", "note", none, none, 5⟩], [], [], 8, 9⟩

/-- C9: every placeholder created by addPlaceholder starts in the same
sentinel state — content exactly "Processing...", type already "note", no
folderId — and nothing else in the store changes, so a pipeline failing
before routing leaves an ordinary unfoldered note reading "Processing...". -/
theorem c9_placeholder_sentinel (db : DB) :
    (addPlaceholder db).2.voiceNotes.head? =
      some ⟨(addPlaceholder db).1, "Processing...", "note", none, none, db.now⟩ ∧
    (addPlaceholder db).2.voiceNotes.tail = db.voiceNotes ∧
    (addPlaceholder db).2.todos = db.todos ∧
    (addPlaceholder db).2.folders = db.folders := by
  simp [addPlaceholder]

/-- C10: finalizeNote mutates only the content, type and folderId fields of
the targeted voice note; its id, createdAt and completed fields are kept,
every other record and table is untouched, the table keeps its size, and
every record of the result comes from a record of the input (finalization
never deletes). -/
theorem c10_finalize_frame (db : DB) (noteId : Nat) (content : String)
    (folderId : Option Nat) :
    (finalizeNote db noteId content folderId).todos = db.todos ∧
    (finalizeNote db noteId content folderId).folders = db.folders ∧
    (finalizeNote db noteId content folderId).nextId = db.nextId ∧
    (finalizeNote db noteId content folderId).voiceNotes.length = db.voiceNotes.length ∧
    (∀ n ∈ db.voiceNotes, n.vid ≠ noteId →
      n ∈ (finalizeNote db noteId content folderId).voiceNotes) ∧
    (∀ n ∈ db.voiceNotes, n.vid = noteId →
      { n with content := content, vtype := "note", folderId := folderId } ∈
        (finalizeNote db noteId content folderId).voiceNotes) ∧
    (∀ m ∈ (finalizeNote db noteId content folderId).voiceNotes,
      ∃ n ∈ db.voiceNotes, m.vid = n.vid ∧ m.createdAt = n.createdAt ∧
        m.completed = n.completed) := by
  refine ⟨rfl, rfl, rfl, by simp [finalizeNote], ?_, ?_, ?_⟩
  · intro n hn hne
    have := List.mem_map_of_mem
      (fun n : VoiceNote =>
        if n.vid = noteId then
          { n with content := content, vtype := "note", folderId := folderId }
        else n) hn
    simpa [finalizeNote, if_neg hne] using this
  · intro n hn heq
    have := List.mem_map_of_mem
      (fun n : VoiceNote =>
        if n.vid = noteId then
          { n with content := content, vtype := "note", folderId := folderId }
        else n) hn
    simpa [finalizeNote, if_pos heq] using this
  · intro m hm
    simp only [finalizeNote, List.mem_map] at hm
    obtain ⟨n, hn, hfn⟩ := hm
    refine ⟨n, hn, ?_⟩
    by_cases h : n.vid = noteId
    · simp [h] at hfn
      subst hfn
      simp [h]
    · simp [h] at hfn
      subst hfn
      simp

/-- C3: a single successful routing call issues exactly one terminal
mutation on the placeholder — a delete exactly when the decision's noteType
is "todo", a finalize otherwise — never both and never neither. -/
theorem c3_exactly_one_terminal (db : DB) (noteId : Nat) (args : DecideArgs) :
    (route db noteId args).2.countP (Effect.isTerminalOn noteId) = 1 ∧
    (route db noteId args).2.countP (Effect.isDeleteOn noteId) =
      (if args.noteType = "todo" then 1 else 0) ∧
    (route db noteId args).2.countP (Effect.isFinalizeOn noteId) =
      (if args.noteType = "todo" then 0 else 1) := by
  unfold route
  by_cases h1 : args.noteType = "todo"
  · simp [h1, Effect.isTerminalOn, Effect.isDeleteOn, Effect.isFinalizeOn,
      List.countP_cons, List.countP_nil]
  · by_cases h2 : args.action = "create_folder"
    · simp [h1, h2, Effect.isTerminalOn, Effect.isDeleteOn, Effect.isFinalizeOn,
        List.countP_cons, List.countP_nil]
    · by_cases h3 : args.action = "categorize_note"
      · cases h : (foldersList db).find? (fun f => toLowerCase f.name = toLowerCase args.folder) with
        | none =>
          simp [h1, h2, h3, h, Effect.isTerminalOn, Effect.isDeleteOn,
            Effect.isFinalizeOn, List.countP_cons, List.countP_nil]
        | some f =>
          simp [h1, h2, h3, h, Effect.isTerminalOn, Effect.isDeleteOn,
            Effect.isFinalizeOn, List.countP_cons, List.countP_nil]
      · simp [h1, h2, h3, Effect.isTerminalOn, Effect.isDeleteOn,
          Effect.isFinalizeOn, List.countP_cons, List.countP_nil]

/-- C4: on a decision with noteType "todo" routing creates a fresh Todo
whose text is the decision's content and whose done field is false, deletes
the placeholder from the voiceNotes table, and ignores the folder-related
fields of the decision (the action and folder values do not change the
outcome). -/
theorem c4_todo_branch (db : DB) (noteId : Nat) (args : DecideArgs)
    (h : args.noteType = "todo") :
    (route db noteId args).1.todos =
      ⟨db.nextId, args.content, false, db.now⟩ :: db.todos ∧
    (∀ n ∈ (route db noteId args).1.voiceNotes, n.vid ≠ noteId) ∧
    (∀ a g : String, route db noteId args = route db noteId ⟨a, "todo", g, args.content⟩) := by
  refine ⟨by simp [route, h, todosCreate, deleteVoiceNote], ?_, ?_⟩
  · intro n hn
    simp [route, h, todosCreate, deleteVoiceNote, List.mem_filter] at hn
    exact hn.2
  · intro a g
    simp [route, h]

/-- C4 witness: the todo branch at a concrete store and decision. -/
theorem c4_todo_branch_witness :
    (route db0 7 ⟨"none", "todo", "", "buy milk"⟩).1.todos =
      ⟨8, "buy milk", false, 9⟩ :: db0.todos ∧
    (∀ n ∈ (route db0 7 ⟨"none", "todo", "", "buy milk"⟩).1.voiceNotes, n.vid ≠ 7) ∧
    (∀ a g : String,
      route db0 7 ⟨"none", "todo", "", "buy milk"⟩ =
        route db0 7 ⟨a, "todo", g, "buy milk"⟩) :=
  c4_todo_branch db0 7 ⟨"none", "todo", "", "buy milk"⟩ rfl

/-- C5: on the todo branch the Todo-creating mutation is issued strictly
before the placeholder delete (it is the earlier entry of the trace), and
the store state after that first mutation alone already holds the new Todo
durably while the placeholder is still untouched. -/
theorem c5_todo_order (db : DB) (noteId : Nat) (args : DecideArgs)
    (h : args.noteType = "todo") :
    (route db noteId args).2 =
      [Effect.createTodo db.nextId args.content, Effect.deleteNote noteId] ∧
    ⟨db.nextId, args.content, false, db.now⟩ ∈ (todosCreate db args.content).2.todos ∧
    (todosCreate db args.content).2.voiceNotes = db.voiceNotes := by
  refine ⟨by simp [route, h, todosCreate], by simp [todosCreate], rfl⟩

/-- C5 witness: the todo trace order at a concrete store and decision. -/
theorem c5_todo_order_witness :
    (route db0 7 ⟨"none", "todo", "", "buy milk"⟩).2 =
      [Effect.createTodo 8 "buy milk", Effect.deleteNote 7] ∧
    ⟨8, "buy milk", false, 9⟩ ∈ (todosCreate db0 "buy milk").2.todos ∧
    (todosCreate db0 "buy milk").2.voiceNotes = db0.voiceNotes :=
  c5_todo_order db0 7 ⟨"none", "todo", "", "buy milk"⟩ rfl

/-- C6: when the classification response carries no structured result (no
tool call to extract), processTranscript fails with the classification
error and issues no store mutation, so a placeholder just created by
addPlaceholder still holds its pending sentinel content. -/
theorem c6_no_tool_call (db : DB) (toolCalls : Option (List ToolCall))
    (h : extractToolCall toolCalls = none) :
    processTranscript (addPlaceholder db).2 (addPlaceholder db).1 toolCalls =
      Except.error "No valid function call in response" ∧
    (addPlaceholder db).2.voiceNotes.head? =
      some ⟨(addPlaceholder db).1, "Processing...", "note", none, none, db.now⟩ := by
  refine ⟨?_, by simp [addPlaceholder]⟩
  simp [processTranscript, h]

/-- C6 witness: an empty tool-call array at a concrete store. -/
theorem c6_no_tool_call_witness :
    processTranscript (addPlaceholder db0).2 (addPlaceholder db0).1 (some []) =
      Except.error "No valid function call in response" ∧
    (addPlaceholder db0).2.voiceNotes.head? =
      some ⟨(addPlaceholder db0).1, "Processing...", "note", none, none, db0.now⟩ :=
  c6_no_tool_call db0 (some []) rfl

/-- The folders table is untouched by finalizeNote. -/
lemma finalizeNote_folders (db : DB) (p : Nat) (c : String) (fid : Option Nat) :
    (finalizeNote db p c fid).folders = db.folders := rfl

/-- Unfolding of the categorize branch of route as a case split on the
case-insensitive folder lookup. -/
lemma route_categorize (db : DB) (p : Nat) (a : DecideArgs)
    (hk : a.noteType ≠ "todo") (ha : a.action = "categorize_note") :
    route db p a =
      match db.folders.find? (fun f => toLowerCase f.name = toLowerCase a.folder) with
      | some f =>
          (finalizeNote db p a.content (some f.fid),
           [Effect.finalize p a.content (some f.fid)])
      | none =>
          (finalizeNote
             { db with
                folders := ⟨db.nextId, a.folder, db.now⟩ :: db.folders
                nextId := db.nextId + 1 } p a.content (some db.nextId),
           [Effect.createFolder db.nextId a.folder,
            Effect.finalize p a.content (some db.nextId)]) := by
  cases h : db.folders.find? (fun f => toLowerCase f.name = toLowerCase a.folder) <;>
    simp [route, hk, ha, foldersList, foldersCreate, h]

/-- C7: on a note decision with routingAction categorize_note, when the
case-insensitive lookup finds an existing folder, no folder is created and
the placeholder is finalized with that folder's id; when no folder matches,
a new folder is created with the caller's name (original casing) and its
fresh id is used. -/
theorem c7_categorize_resolution (db : DB) (noteId : Nat) (args : DecideArgs)
    (hk : args.noteType ≠ "todo") (ha : args.action = "categorize_note") :
    (∀ f, db.folders.find? (fun g => toLowerCase g.name = toLowerCase args.folder) = some f →
      (route db noteId args).2 = [Effect.finalize noteId args.content (some f.fid)] ∧
      (route db noteId args).1.folders = db.folders ∧
      f ∈ db.folders ∧ toLowerCase f.name = toLowerCase args.folder) ∧
    (db.folders.find? (fun g => toLowerCase g.name = toLowerCase args.folder) = none →
      (route db noteId args).2 =
        [Effect.createFolder db.nextId args.folder,
         Effect.finalize noteId args.content (some db.nextId)] ∧
      (route db noteId args).1.folders = ⟨db.nextId, args.folder, db.now⟩ :: db.folders) := by
  constructor
  · intro f hf
    have hmem := List.mem_of_find?_eq_some hf
    have hp : toLowerCase f.name = toLowerCase args.folder := by
      have := List.find?_some hf
      simpa using this
    rw [route_categorize db noteId args hk ha, hf]
    exact ⟨rfl, rfl, hmem, hp⟩
  · intro hf
    rw [route_categorize db noteId args hk ha, hf]
    exact ⟨rfl, rfl⟩

/-- A store with a pending placeholder (id 7) and one folder named
"groceries" in lowercase, for the C7 witness. -/
def dbG : DB := ⟨[⟨7, "Processing...", "note", none, none, 5⟩], [], [⟨3, "groceries", 1⟩], 8, 9⟩

/-- The C7 witness decision: categorize under "Groceries" (capitalized). -/
def argsC7 : DecideArgs := ⟨"categorize_note", "note", "Groceries", "buy spinach"⟩

/-- C7 witness: resolution of "Groceries" against an existing lowercase
"groceries" folder at a concrete store. -/
theorem c7_categorize_resolution_witness :
    (∀ f, dbG.folders.find? (fun g => toLowerCase g.name = toLowerCase argsC7.folder) = some f →
      (route dbG 7 argsC7).2 = [Effect.finalize 7 argsC7.content (some f.fid)] ∧
      (route dbG 7 argsC7).1.folders = dbG.folders ∧
      f ∈ dbG.folders ∧ toLowerCase f.name = toLowerCase argsC7.folder) ∧
    (dbG.folders.find? (fun g => toLowerCase g.name = toLowerCase argsC7.folder) = none →
      (route dbG 7 argsC7).2 =
        [Effect.createFolder dbG.nextId argsC7.folder,
         Effect.finalize 7 argsC7.content (some dbG.nextId)] ∧
      (route dbG 7 argsC7).1.folders = ⟨dbG.nextId, argsC7.folder, dbG.now⟩ :: dbG.folders) :=
  c7_categorize_resolution dbG 7 argsC7 (by decide) rfl

/-- C1 counterexample: a structured payload violating the claimed shape in
every way — kind "banana" outside {note, todo}, routingAction "mystery"
outside the enum, empty content — is not rejected: processTranscript
accepts it and routes it through the default branch, finalizing the
placeholder with empty content. -/
theorem c1_counterexample :
    ¬("banana" = "note" ∨ "banana" = "todo") ∧
    ¬("mystery" = "create_folder" ∨ "mystery" = "categorize_note" ∨ "mystery" = "none") ∧
    ("" : String).length = 0 ∧
    processTranscript db0 7 (some [⟨"decide", ⟨"mystery", "banana", "", ""⟩⟩]) =
      Except.ok
        (⟨[⟨7, "", "note", none, none, 5⟩], [], [], 8, 9⟩,
         [Effect.finalize 7 "" none]) :=
  ⟨by decide, by decide, rfl, rfl⟩

/-- C1 (amended): the pipeline rejects with the classification error
exactly when no first tool call named "decide" is present — the tool-call
array is absent or empty, or its first entry bears another name; whenever a
first tool call named "decide" is present, its parsed arguments are routed
with no schema validation at all. -/
theorem c1_no_local_schema_validation :
    (∀ (db : DB) (p : Nat) (args : DecideArgs) (rest : List ToolCall),
      processTranscript db p (some (⟨"decide", args⟩ :: rest)) =
        Except.ok (route db p args)) ∧
    (∀ (db : DB) (p : Nat) (toolCalls : Option (List ToolCall)),
      processTranscript db p toolCalls =
          Except.error "No valid function call in response" ↔
        (extractToolCall toolCalls = none ∨
          ∃ tc, extractToolCall toolCalls = some tc ∧ tc.name ≠ "decide")) := by
  constructor
  · intro db p args rest
    rfl
  · intro db p toolCalls
    unfold processTranscript
    cases h : extractToolCall toolCalls with
    | none => simp
    | some tc =>
      by_cases hname : tc.name = "decide"
      · simp [hname]
      · simp [hname]

/-- A classification response carrying two structured results, for the C8
counterexample. -/
def twoCalls : List ToolCall :=
  [⟨"decide", ⟨"none", "note", "", "first result"⟩⟩,
   ⟨"decide", ⟨"none", "note", "", "second result"⟩⟩]

/-- C8 counterexample: a response with two structured results is not
treated as an error — processTranscript silently uses the first one and
routes it. -/
theorem c8_counterexample :
    twoCalls.length = 2 ∧
    processTranscript db0 7 (some twoCalls) =
      Except.ok
        (⟨[⟨7, "first result", "note", none, none, 5⟩], [], [], 8, 9⟩,
         [Effect.finalize 7 "first result" none]) :=
  ⟨rfl, rfl⟩

/-- C8 (amended): a response with zero structured results (absent or empty
tool-call array) is rejected with the classification error, but when one or
more results are present the first is used and no error is raised. -/
theorem c8_zero_errors_first_is_used :
    (∀ (db : DB) (p : Nat),
      processTranscript db p none = Except.error "No valid function call in response") ∧
    (∀ (db : DB) (p : Nat),
      processTranscript db p (some []) =
        Except.error "No valid function call in response") ∧
    (∀ (db : DB) (p : Nat) (tc : ToolCall) (rest : List ToolCall),
      tc.name = "decide" →
        processTranscript db p (some (tc :: rest)) =
          Except.ok (route db p tc.arguments)) := by
  refine ⟨fun db p => rfl, fun db p => rfl, fun db p tc rest h => ?_⟩
  simp [processTranscript, extractToolCall, h]

/-- A store holding a pending placeholder (id 7) and one folder named
"Groceries" (capitalized), for the C2 counterexample. -/
def dbC2 : DB := ⟨[⟨7, "Processing...", "note", none, none, 5⟩], [], [⟨3, "Groceries", 1⟩], 8, 9⟩

/-- C2 counterexample: with a folder "Groceries" (id 3) already present, a
create_folder decision for the case-equal name "groceries" creates a second
folder (id 8) instead of reusing the existing one: the create_folder branch
performs no case-insensitive resolution, so a duplicate is created and the
decision is routed to the new id, not the existing one. -/
theorem c2_counterexample :
    toLowerCase "groceries" = toLowerCase "Groceries" ∧
    route dbC2 7 ⟨"create_folder", "note", "groceries", "milk"⟩ =
      (⟨[⟨7, "milk", "note", some 8, none, 5⟩], [],
        [⟨8, "groceries", 9⟩, ⟨3, "Groceries", 1⟩], 9, 9⟩,
       [Effect.createFolder 8 "groceries", Effect.finalize 7 "milk" (some 8)]) ∧
    (8 : Nat) ≠ 3 :=
  ⟨by decide, rfl, by decide⟩

/-- C2 (amended): through the categorize_note branch the dedup property
does hold — after routing one categorize_note decision, routing a second
one whose folder name differs only in letter case resolves to the same
folder id, creates no folder, and leaves the folders table unchanged. -/
theorem c2_categorize_dedup (db : DB) (p1 p2 : Nat) (a1 a2 : DecideArgs)
    (h1k : a1.noteType ≠ "todo") (h1a : a1.action = "categorize_note")
    (h2k : a2.noteType ≠ "todo") (h2a : a2.action = "categorize_note")
    (hn : toLowerCase a2.folder = toLowerCase a1.folder) :
    routedFolderId (route (route db p1 a1).1 p2 a2).2 =
      routedFolderId (route db p1 a1).2 ∧
    (routedFolderId (route db p1 a1).2).isSome = true ∧
    (route (route db p1 a1).1 p2 a2).2.countP Effect.isCreateFolder = 0 ∧
    (route (route db p1 a1).1 p2 a2).1.folders = (route db p1 a1).1.folders := by
  rw [route_categorize db p1 a1 h1k h1a]
  cases h : db.folders.find? (fun f => toLowerCase f.name = toLowerCase a1.folder) with
  | some f =>
    rw [route_categorize _ p2 a2 h2k h2a]
    simp only [finalizeNote_folders, hn, h]
    simp [routedFolderId, Effect.isCreateFolder, List.countP_cons, List.countP_nil,
      finalizeNote_folders]
  | none =>
    rw [route_categorize _ p2 a2 h2k h2a]
    have hhead : ((⟨db.nextId, a1.folder, db.now⟩ : Folder) :: db.folders).find?
        (fun f => toLowerCase f.name = toLowerCase a2.folder) =
        some ⟨db.nextId, a1.folder, db.now⟩ := by
      simp [List.find?_cons, hn]
    simp only [finalizeNote_folders, hhead]
    simp [routedFolderId, Effect.isCreateFolder, List.countP_cons, List.countP_nil,
      finalizeNote_folders]

/-- A store with two pending placeholders and no folder, for the C2
witness. -/
def dbW2 : DB :=
  ⟨[⟨0, "Processing...", "note", none, none, 0⟩,
    ⟨1, "Processing...", "note", none, none, 0⟩], [], [], 2, 3⟩

/-- First C2 witness decision: categorize under "Groceries". -/
def a1W : DecideArgs := ⟨"categorize_note", "note", "Groceries", "I need eggs"⟩

/-- Second C2 witness decision: categorize under "groceries" (lowercase). -/
def a2W : DecideArgs := ⟨"categorize_note", "note", "groceries", "buy spinach"⟩

/-- C2 witness: two sequential categorize_note decisions whose folder names
differ only in case, at a concrete store. -/
theorem c2_categorize_dedup_witness :
    routedFolderId (route (route dbW2 0 a1W).1 1 a2W).2 =
      routedFolderId (route dbW2 0 a1W).2 ∧
    (routedFolderId (route dbW2 0 a1W).2).isSome = true ∧
    (route (route dbW2 0 a1W).1 1 a2W).2.countP Effect.isCreateFolder = 0 ∧
    (route (route dbW2 0 a1W).1 1 a2W).1.folders = (route dbW2 0 a1W).1.folders :=
  c2_categorize_dedup dbW2 0 1 a1W a2W (by decide) rfl (by decide) rfl (by decide)

end Talk
